import Mathlib

/-!
Verification development for the multi-modal heuristic AI-content scoring
engine of `ai_detector.py` (class `AIContentDetector` and `format_result`).

The engine is embedded shallowly:
* All numeric computation is carried out exactly over `ℚ`.  The Python source
  computes with IEEE floats; every constant that occurs in the source
  (weights, thresholds, fixed sub-scores) is an exactly representable small
  decimal, and the decision logic only compares statistics against such
  constants, so the rational embedding reproduces the branch structure.
* Statistics that the source obtains from external numeric libraries
  (cv2 / numpy / librosa: Laplacian standard deviation, FFT energy ratio,
  Canny edge density, optical-flow magnitudes, spectral centroid, …) are
  modelled as abstract rational inputs carried by the input structures:
  the engine's own decision logic on top of them is embedded verbatim.
* The symmetry analyser is embedded one level deeper, down to the grayscale
  pixel grid, because its claims quantify over the pixel data: the
  split / flip / crop / flatten steps are list computations, and the
  `np.corrcoef(x, y)[0,1] > 0.85` test is expressed exactly (see `corr_gt`).
* Python's `round(x, n)` is modelled as round-half-up to `n` decimals
  (`pyround2`, `pyround1`); no claim exercises a tie, where Python's
  half-to-even would differ.
* `dict` results are modelled by `Result`, a record of `Option` fields, so
  that presence/absence of every key is explicit; `dict` detail payloads
  are association lists in insertion order.
* The `try/except` wrappers are modelled by input constructors
  (`loadFailure`, `openFailure`, `raised`): each constructor corresponds to
  one return path of the source, and the `raised` constructor carries the
  exception text reaching the `except` clause.
-/

namespace AIDetector

/-- Python `round(y, 2)` (half-up model): round `y` to two decimal places. -/
def pyround2 (y : ℚ) : ℚ := (round (y * 100) : ℤ) / 100

/-- Python `round(y, 1)` (half-up model): round `y` to one decimal place. -/
def pyround1 (y : ℚ) : ℚ := (round (y * 10) : ℤ) / 10

/-- `np.sum` over a flat list of rationals. -/
def lsum (l : List ℚ) : ℚ := l.foldr (· + ·) 0

/-- `np.mean` over a flat list of rationals (callers guard non-emptiness). -/
def lmean (l : List ℚ) : ℚ := lsum l / l.length

/-- Centred scatter (un-normalised covariance) `Σ (xᵢ - x̄)(yᵢ - ȳ)` of two
flattened sample vectors; the normalisation factor of the covariance cancels
in a correlation ratio, so scatter suffices to express the correlation test. -/
def scatter (x y : List ℚ) : ℚ :=
  lsum (List.zipWith (fun a b => (a - lmean x) * (b - lmean y)) x y)

/-- Exact form of the source's test `np.corrcoef(x, y)[0, 1] > t` for a
positive threshold `t` (here always `0.85`).  The Pearson correlation is
`Sxy / √(Sxx·Syy)`; for `t > 0` the comparison holds iff
`Sxx·Syy > 0 ∧ Sxy > 0 ∧ Sxy² > t²·Sxx·Syy`.  When a variance vanishes,
`np.corrcoef` yields NaN and the Python `>` comparison is false, matched
here by the `0 < Sxx·Syy` conjunct. -/
def corr_gt (x y : List ℚ) (t : ℚ) : Prop :=
  0 < scatter x x * scatter y y ∧ 0 < scatter x y ∧
    t ^ 2 * (scatter x x * scatter y y) < scatter x y ^ 2

instance (x y : List ℚ) (t : ℚ) : Decidable (corr_gt x y t) := by
  unfold corr_gt; infer_instance

/-- Outcome of the EXIF extraction performed by `_analyze_metadata`:
either the `except` branch was taken, or `img._getexif()` returned `None`,
or it returned a tag dictionary with `numTags` entries of which
`hasCameraField` records whether any tag is one of
`Make`/`Model`/`DateTime`/`Software`. -/
inductive ExifInfo where
  | extractionFailure : ExifInfo
  | noExif : ExifInfo
  | exifTags (numTags : ℕ) (hasCameraField : Bool) : ExifInfo

/-- `AIContentDetector._analyze_metadata`. -/
def _analyze_metadata : ExifInfo → ℚ
  | .extractionFailure => 0.5
  | .noExif => 0.8
  | .exifTags numTags hasCameraField =>
      if numTags < 3 then 0.8
      else if hasCameraField then 0.2 else 0.7

/-- `AIContentDetector._analyze_noise_patterns`; `noise_std` is the library
statistic `np.std(cv2.Laplacian(gray, cv2.CV_64F))`. -/
def _analyze_noise_patterns (noise_std : ℚ) : ℚ :=
  if noise_std < 5 then 0.7
  else if noise_std > 25 * 2 then 0.6
  else 0.3

/-- The sample-vector pipeline of `_analyze_symmetry`: split the grid
vertically at `w // 2`, mirror the right half (`cv2.flip(·, 1)` reverses
each row), crop both halves to the common width and flatten them. -/
def symmetry_vectors (gray : List (List ℚ)) : List ℚ × List ℚ :=
  let w := (gray.headD []).length
  let left := gray.map fun row => row.take (w / 2)
  let right := gray.map fun row => (row.drop (w / 2)).reverse
  let min_width := min (w / 2) (w - w / 2)
  let leftC := left.map fun row => row.take min_width
  let rightC := right.map fun row => row.take min_width
  (leftC.flatten, rightC.flatten)

/-- `AIContentDetector._analyze_symmetry` on the grayscale intensity grid
(row-major, rectangular): build the two cropped half vectors and test the
correlation of the flattened samples against 0.85. -/
def _analyze_symmetry (gray : List (List ℚ)) : ℚ :=
  let v := symmetry_vectors gray
  if corr_gt v.1 v.2 0.85 then 0.7 else 0.3

/-- `AIContentDetector._analyze_frequency`; `ratio` is the library statistic
`center_energy / (edge_energy + 1)` of the shifted FFT magnitude spectrum. -/
def _analyze_frequency (ratio : ℚ) : ℚ :=
  if ratio > 100 ∨ ratio < 10 then 0.7 else 0.3

/-- Library statistics of one image/frame used by the noise and artifact
analysers: `np.std` and `np.var` of the Laplacian response, Canny edge-pixel
density, and mean HSV saturation (for colour data). -/
structure FrameStats where
  noise_std : ℚ
  checker_variance : ℚ
  edge_density : ℚ
  mean_saturation : ℚ
deriving Repr

/-- `AIContentDetector._detect_ai_artifacts`: sum of triggered contributions
divided by the number of checks evaluated (the saturation check runs only on
colour data, `len(img.shape) == 3`). -/
def _detect_ai_artifacts (s : FrameStats) (isColor : Bool) : ℚ :=
  let score : ℚ := 0
  let count : ℕ := 0
  let score := if s.checker_variance > 1000 then score + 0.8 else score
  let count := count + 1
  let score := if s.edge_density < 0.05 ∨ s.edge_density > 0.3 then score + 0.6 else score
  let count := count + 1
  let sc : ℚ × ℕ :=
    if isColor then
      (if s.mean_saturation > 180 then score + 0.7 else score, count + 1)
    else (score, count)
  if sc.2 > 0 then sc.1 / sc.2 else 0.5

/-- Mean and standard deviation of the per-pixel Farnebäck optical-flow
magnitude between two frames (library statistics). -/
structure FlowStats where
  mean : ℚ
  std : ℚ
deriving Repr

/-- `AIContentDetector._analyze_temporal_consistency` on the flow statistics
of a frame pair. -/
def _analyze_temporal_consistency (f : FlowStats) : ℚ :=
  if f.mean > 20 ∨ (f.mean < 2 ∧ f.std < 1) then 0.7 else 0.3

/-- `AIContentDetector._analyze_audio_spectrum`; the input is the library
statistic `np.mean(librosa.feature.spectral_centroid(y=y, sr=sr)[0])`. -/
def _analyze_audio_spectrum (mean_centroid : ℚ) : ℚ :=
  if mean_centroid < 1000 ∨ mean_centroid > 4000 then 0.7 else 0.3

/-- `AIContentDetector._analyze_audio_patterns`; the input is the library
statistic `np.std(librosa.feature.zero_crossing_rate(y)[0])`. -/
def _analyze_audio_patterns (zcr_std : ℚ) : ℚ :=
  if zcr_std < 0.01 then 0.7 else 0.3

/-- `AIContentDetector._analyze_voice_naturalness`; the input is the library
statistic `np.mean(np.var(mfccs, axis=1))` over 13 MFCC trajectories. -/
def _analyze_voice_naturalness (mean_var : ℚ) : ℚ :=
  if mean_var < 10 then 0.7 else 0.3

/-- A value stored under a key of the `details` dict: a Python `float`
sub-score/percentage or a Python `int` counter. -/
inductive DetailValue where
  | fl (v : ℚ) : DetailValue
  | int (n : ℤ) : DetailValue
deriving Repr, DecidableEq

/-- A result `dict` of the engine.  Each Python dict key is an `Option`
field so presence and absence are explicit; `details` keeps insertion
order. -/
structure Result where
  type : Option String := none
  ai_probability : Option ℚ := none
  indicators : Option (List String) := none
  details : Option (List (String × DetailValue)) := none
  error : Option String := none
deriving Repr

/-- A successfully decoded image (`cv2.imread` ≠ `None`): grayscale grid,
library statistics, colour flag (`len(img.shape) == 3`), FFT energy ratio
and EXIF extraction outcome. -/
structure ImageData where
  gray : List (List ℚ)
  stats : FrameStats
  isColor : Bool
  freq_ratio : ℚ
  exif : ExifInfo

/-- Input to `detect_image`: decode failure, an exception reaching the
`except` clause, or a decoded image. -/
inductive ImageSource where
  | loadFailure : ImageSource
  | raised (e : String) : ImageSource
  | loaded (d : ImageData) : ImageSource

/-- The `weights` dict of `detect_image`. -/
def image_weights : List (String × ℚ) :=
  [("metadata", 0.15), ("noise", 0.25), ("symmetry", 0.15),
   ("frequency", 0.20), ("artifacts", 0.25)]

/-- `AIContentDetector.detect_image`. -/
def detect_image (src : ImageSource) : Result :=
  match src with
  | .loadFailure => { error := some "Не удалось загрузить изображение" }
  | .raised e => { error := some ("Ошибка анализа: " ++ e) }
  | .loaded d =>
    let metadata_score := _analyze_metadata d.exif
    let noise_score := _analyze_noise_patterns d.stats.noise_std
    let symmetry_score := _analyze_symmetry d.gray
    let frequency_score := _analyze_frequency d.freq_ratio
    let artifact_score := _detect_ai_artifacts d.stats d.isColor
    let total_score :=
      metadata_score * ((image_weights.lookup "metadata").getD 0) +
      noise_score * ((image_weights.lookup "noise").getD 0) +
      symmetry_score * ((image_weights.lookup "symmetry").getD 0) +
      frequency_score * ((image_weights.lookup "frequency").getD 0) +
      artifact_score * ((image_weights.lookup "artifacts").getD 0)
    let indicators :=
      (if metadata_score > 0.6 then ["Отсутствие/подозрительные метаданные"] else []) ++
      (if noise_score > 0.7 then ["Неестественное распределение шума"] else []) ++
      (if symmetry_score > 0.6 then ["Подозрительные паттерны симметрии"] else []) ++
      (if frequency_score > 0.7 then ["Аномалии в частотном спектре"] else []) ++
      (if artifact_score > 0.7 then ["Обнаружены AI-артефакты"] else [])
    { type := some "image"
      ai_probability := some (pyround2 (total_score * 100))
      indicators := some indicators
      details := some
        [("metadata_analysis", .fl metadata_score),
         ("noise_patterns", .fl noise_score),
         ("symmetry_analysis", .fl symmetry_score),
         ("frequency_analysis", .fl frequency_score),
         ("ai_artifacts", .fl artifact_score)] }

/-- A video source that opened: the container's reported frame count
(`int(cap.get(cv2.CAP_PROP_FRAME_COUNT))`, non-negative for real
containers) and the sequence of frames `cap.read()` can decode, in order.
Decoded frames are colour (BGR) data. -/
structure VideoData where
  total_frames : ℕ
  frames : List FrameStats

/-- Input to `detect_video`: `cv2.VideoCapture` failed to open, an
exception reaching the `except` clause, or an opened capture. -/
inductive VideoSource where
  | openFailure : VideoSource
  | raised (e : String) : VideoSource
  | opened (v : VideoData) : VideoSource

/-- The frame-score weight `0.6` of `detect_video`'s aggregation. -/
def video_frame_weight : ℚ := 0.6

/-- The temporal-score weight `0.4` of `detect_video`'s aggregation. -/
def video_temporal_weight : ℚ := 0.4

/-- The frame-reading loop of `detect_video`.  The source checks
`frame_count < max_frames` (`max_frames = 30`) before each `cap.read()`,
breaks when a read fails, analyses the frame when
`frame_count % step == 0` (appending its frame score, and — when a
previously analysed frame exists — the temporal score of the pair), and
increments `frame_count` on every iteration.  `flow` supplies the
optical-flow statistics of a frame pair.  Returns
`(frame_scores, temporal_scores)` in append order. -/
def video_loop (flow : FrameStats → FrameStats → FlowStats) (step : ℕ) :
    List FrameStats → ℕ → Option FrameStats → List ℚ × List ℚ
  | [], _, _ => ([], [])
  | f :: rest, frame_count, prev =>
    if frame_count < 30 then
      if frame_count % step == 0 then
        let noise_score := _analyze_noise_patterns f.noise_std
        let artifact_score := _detect_ai_artifacts f true
        let frame_score := (noise_score + artifact_score) / 2
        let tail := video_loop flow step rest (frame_count + 1) (some f)
        match prev with
        | some p =>
            (frame_score :: tail.1,
             _analyze_temporal_consistency (flow p f) :: tail.2)
        | none => (frame_score :: tail.1, tail.2)
      else video_loop flow step rest (frame_count + 1) prev
    else ([], [])

/-- `AIContentDetector.detect_video`. -/
def detect_video (flow : FrameStats → FrameStats → FlowStats)
    (src : VideoSource) : Result :=
  match src with
  | .openFailure => { error := some "Не удалось открыть видео" }
  | .raised e => { error := some ("Ошибка анализа видео: " ++ e) }
  | .opened v =>
    let step := max 1 (v.total_frames / 30)
    let scores := video_loop flow step v.frames 0 none
    let frame_scores := scores.1
    let temporal_scores := scores.2
    if frame_scores.isEmpty then
      { type := some "video", ai_probability := some 0, indicators := some [],
        details := some [("frames_analyzed", .int 0),
                         ("temporal_consistency", .fl 0)] }
    else
      let avg_frame_score := lmean frame_scores
      let avg_temporal_score :=
        if temporal_scores.isEmpty then 0.5 else lmean temporal_scores
      let indicators :=
        (if avg_frame_score > 0.7 then ["AI-артефакты в кадрах"] else []) ++
        (if avg_temporal_score > 0.7
         then ["Нарушение темпоральной согласованности"] else [])
      { type := some "video"
        ai_probability := some (pyround2
          ((avg_frame_score * video_frame_weight +
            avg_temporal_score * video_temporal_weight) * 100))
        indicators := some indicators
        details := some
          [("frames_analyzed", .int frame_scores.length),
           ("temporal_consistency", .fl (pyround2 (avg_temporal_score * 100)))] }

/-- A successfully loaded audio signal, through its library statistics:
mean spectral centroid, zero-crossing-rate standard deviation and mean
MFCC variance. -/
structure AudioData where
  mean_centroid : ℚ
  zcr_std : ℚ
  mean_mfcc_var : ℚ

/-- Input to `detect_audio`: an exception reaching the `except` clause
(e.g. `librosa.load` failing) or a loaded signal. -/
inductive AudioSource where
  | raised (e : String) : AudioSource
  | loaded (a : AudioData) : AudioSource

/-- The spectral weight `0.35` of `detect_audio`'s aggregation. -/
def audio_spectral_weight : ℚ := 0.35

/-- The pattern weight `0.35` of `detect_audio`'s aggregation. -/
def audio_pattern_weight : ℚ := 0.35

/-- The naturalness weight `0.30` of `detect_audio`'s aggregation. -/
def audio_naturalness_weight : ℚ := 0.30

/-- `AIContentDetector.detect_audio`. -/
def detect_audio (src : AudioSource) : Result :=
  match src with
  | .raised e => { error := some ("Ошибка анализа аудио: " ++ e) }
  | .loaded a =>
    let spectral_score := _analyze_audio_spectrum a.mean_centroid
    let pattern_score := _analyze_audio_patterns a.zcr_std
    let naturalness_score := _analyze_voice_naturalness a.mean_mfcc_var
    let total_score :=
      spectral_score * audio_spectral_weight +
      pattern_score * audio_pattern_weight +
      naturalness_score * audio_naturalness_weight
    let indicators :=
      (if spectral_score > 0.7 then ["Аномалии в спектре"] else []) ++
      (if pattern_score > 0.7 then ["Подозрительные паттерны"] else []) ++
      (if naturalness_score > 0.7 then ["Неестественное звучание"] else [])
    { type := some "audio"
      ai_probability := some (pyround2 (total_score * 100))
      indicators := some indicators
      details := some
        [("spectral_analysis", .fl spectral_score),
         ("pattern_analysis", .fl pattern_score),
         ("naturalness", .fl naturalness_score)] }

/-- The `key_ru` display-label table of `format_result`. -/
def key_ru_table : List (String × String) :=
  [("metadata_analysis", "Метаданные"),
   ("noise_patterns", "Паттерны шума"),
   ("symmetry_analysis", "Симметрия"),
   ("frequency_analysis", "Частотный анализ"),
   ("ai_artifacts", "AI-артефакты"),
   ("frames_analyzed", "Проанализировано кадров"),
   ("temporal_consistency", "Темпоральная согласованность"),
   ("spectral_analysis", "Спектральный анализ"),
   ("pattern_analysis", "Анализ паттернов"),
   ("naturalness", "Естественность")]

/-- One rendered line of the detail table: a `float` value is shown as
`round(value * 100, 1)` followed by a percent sign; any other value is
shown verbatim. -/
inductive RenderedValue where
  | percent (v : ℚ) : RenderedValue
  | verbatim (n : ℤ) : RenderedValue
deriving Repr, DecidableEq

/-- Rendering of one `details` entry by `format_result`: translate the key
through `key_ru_table` (falling back to the key itself) and render the
value. -/
def render_detail (kv : String × DetailValue) : String × RenderedValue :=
  let key_ru := (key_ru_table.lookup kv.1).getD kv.1
  match kv.2 with
  | .fl v => (key_ru, .percent (pyround1 (v * 100)))
  | .int n => (key_ru, .verbatim n)

/-- The verdict / traffic-light selection of `format_result`:
`ai_prob ≥ 70` red, `ai_prob ≥ 40` yellow, otherwise green. -/
def verdict_of (ai_prob : ℚ) : String × String :=
  if ai_prob ≥ 70 then ("🤖 Вероятно создано AI", "🔴")
  else if ai_prob ≥ 40 then ("⚠️ Возможно создано AI", "🟡")
  else ("✅ Вероятно создано человеком", "🟢")

/-- The rendered report of a non-error result: verdict line, probability,
indicator bullets (empty list ⇒ the block is omitted) and the translated
detail table, in the source's emission order. -/
structure Rendered where
  emoji : String
  verdict : String
  ai_probability : ℚ
  indicators : List String
  details : List (String × RenderedValue)
deriving Repr

/-- The display text produced by `format_result`, kept structured: either
the single error line `"❌ {error}"` carrying only the error message, or a
full report. -/
inductive Output where
  | errorOnly (msg : String) : Output
  | report (r : Rendered) : Output
deriving Repr

/-- `format_result`.  Field reads on the result dict are modelled with
`Option.getD` defaults; on every result the engine actually returns, the
fields are present (see the shape theorem for C4), so the defaults are
never exercised. -/
def format_result (r : Result) : Output :=
  match r.error with
  | some e => .errorOnly e
  | none =>
    let ai_prob := r.ai_probability.getD 0
    let ve := verdict_of ai_prob
    .report { emoji := ve.2, verdict := ve.1, ai_probability := ai_prob,
              indicators := r.indicators.getD [],
              details := (r.details.getD []).map render_detail }

/-- The rendered detail table of an `Output` (empty for the error line). -/
def rendered_details : Output → List (String × RenderedValue)
  | .errorOnly _ => []
  | .report r => r.details

/-- The two legal shapes of an engine result `dict`: an error result
carrying only the `error` key, or a data result carrying `type`,
`ai_probability`, `indicators` and `details` and no `error`. -/
def result_shape (r : Result) : Prop :=
  (r.error.isSome = true ∧ r.type = none ∧ r.ai_probability = none ∧
    r.indicators = none ∧ r.details = none) ∨
  (r.error = none ∧ r.type.isSome = true ∧ r.ai_probability.isSome = true ∧
    r.indicators.isSome = true ∧ r.details.isSome = true)

/-! ## Concrete test inputs -/

/-- A frame/image whose statistics trigger nothing: mid-band noise, low
Laplacian variance, in-range edge density, moderate saturation. -/
def neutralFrame : FrameStats :=
  { noise_std := 10, checker_variance := 100, edge_density := 0.1,
    mean_saturation := 100 }

/-- Optical-flow statistics function returning zero flow for every pair. -/
def zeroFlow : FrameStats → FrameStats → FlowStats := fun _ _ => ⟨0, 0⟩

/-- A 90-frame video (container count 90, all 90 frames decodable). -/
def ninetyFrameVideo : VideoData :=
  { total_frames := 90, frames := List.replicate 90 neutralFrame }

/-- An opened video source with no decodable frames. -/
def emptyVideo : VideoData := { total_frames := 0, frames := [] }

/-- A solid-colour 2×2 grayscale grid: every row mirror-symmetric, zero
sample variance. -/
def constGray : List (List ℚ) := [[5, 5], [5, 5]]

/-- A decoded image whose grayscale grid is `constGray` and whose other
statistics trigger nothing. -/
def constMirrorImage : ImageData :=
  { gray := constGray, stats := neutralFrame, isColor := true,
    freq_ratio := 50, exif := .exifTags 5 true }

/-- A mirror-symmetric 2×4 grayscale grid with non-constant samples. -/
def mirrorGray : List (List ℚ) := [[1, 2, 2, 1], [3, 4, 4, 3]]

/-- A decoded image whose grayscale grid is `mirrorGray` and whose other
statistics trigger nothing. -/
def mirrorImage : ImageData :=
  { gray := mirrorGray, stats := neutralFrame, isColor := true,
    freq_ratio := 50, exif := .exifTags 5 true }

/-- A decoded image without EXIF data and otherwise neutral statistics. -/
def noExifImage : ImageData :=
  { gray := constGray, stats := neutralFrame, isColor := true,
    freq_ratio := 50, exif := .noExif }

/-- Three frames distinguishable by their noise statistic. -/
def frameA : FrameStats := { noise_std := 1, checker_variance := 0, edge_density := 0.1, mean_saturation := 0 }

/-- Second frame of the three-frame video. -/
def frameB : FrameStats := { noise_std := 2, checker_variance := 0, edge_density := 0.1, mean_saturation := 0 }

/-- Third frame of the three-frame video. -/
def frameC : FrameStats := { noise_std := 3, checker_variance := 0, edge_density := 0.1, mean_saturation := 0 }

/-- A three-frame video (all frames decodable, container count 3). -/
def threeFrameVideo : VideoData := { total_frames := 3, frames := [frameA, frameB, frameC] }

/-- A flow-statistics function giving abrupt motion into `frameB`
(mean 25 > 20 ⇒ temporal score 0.7) and ordinary motion elsewhere
(mean 5, std 5 ⇒ temporal score 0.3). -/
def abruptIntoB : FrameStats → FrameStats → FlowStats :=
  fun _ f => if f.noise_std = 2 then ⟨25, 0⟩ else ⟨5, 5⟩

/-! ## Helper lemmas -/

theorem lsum_nil : lsum [] = 0 := rfl

theorem lsum_cons (a : ℚ) (t : List ℚ) : lsum (a :: t) = a + lsum t := rfl

theorem lsum_nonneg {l : List ℚ} (h : ∀ x ∈ l, 0 ≤ x) : 0 ≤ lsum l := by
  induction l with
  | nil => simp [lsum_nil]
  | cons a t ih =>
    rw [lsum_cons]
    have ha := h a (List.mem_cons_self a t)
    have ht := ih fun x hx => h x (List.mem_cons_of_mem a hx)
    linarith

theorem lsum_le_card_mul {l : List ℚ} {c : ℚ} (h : ∀ x ∈ l, x ≤ c) :
    lsum l ≤ c * l.length := by
  induction l with
  | nil => simp [lsum_nil]
  | cons a t ih =>
    rw [lsum_cons]
    have ha := h a (List.mem_cons_self a t)
    have ht := ih fun x hx => h x (List.mem_cons_of_mem a hx)
    rw [List.length_cons]
    push_cast
    linarith

theorem lmean_nonneg {l : List ℚ} (h : ∀ x ∈ l, 0 ≤ x) : 0 ≤ lmean l :=
  div_nonneg (lsum_nonneg h) (by positivity)

theorem lmean_le {l : List ℚ} {c : ℚ} (hne : l ≠ []) (h : ∀ x ∈ l, x ≤ c) :
    lmean l ≤ c := by
  have hlen : 0 < (l.length : ℚ) := by
    have : 0 < l.length := List.length_pos.mpr hne
    exact_mod_cast this
  rw [lmean, div_le_iff₀ hlen]
  have := lsum_le_card_mul h
  linarith

theorem pyround2_bounds {y : ℚ} (h0 : 0 ≤ y) (h1 : y ≤ 100) :
    0 ≤ pyround2 y ∧ pyround2 y ≤ 100 := by
  constructor
  · apply div_nonneg _ (by norm_num)
    have : (0:ℤ) ≤ round (y * 100) := by
      rw [round_eq]
      exact Int.floor_nonneg.mpr (by linarith)
    exact_mod_cast this
  · rw [pyround2, div_le_iff₀ (by norm_num : (0:ℚ) < 100)]
    have hr : round (y * 100) ≤ 10000 := by
      rw [round_eq]
      have hle : ⌊y * 100 + 1 / 2⌋ ≤ ⌊(10000:ℚ) + 1 / 2⌋ :=
        Int.floor_le_floor (by linarith)
      have : ⌊(10000:ℚ) + 1 / 2⌋ = 10000 := by norm_num
      omega
    have : ((round (y * 100) : ℤ) : ℚ) ≤ 10000 := by exact_mod_cast hr
    linarith

theorem image_weight_metadata : (image_weights.lookup "metadata").getD 0 = 0.15 := rfl

theorem image_weight_noise : (image_weights.lookup "noise").getD 0 = 0.25 := rfl

theorem image_weight_symmetry : (image_weights.lookup "symmetry").getD 0 = 0.15 := rfl

theorem image_weight_frequency : (image_weights.lookup "frequency").getD 0 = 0.20 := rfl

theorem image_weight_artifacts : (image_weights.lookup "artifacts").getD 0 = 0.25 := rfl

theorem _analyze_metadata_bounds (e : ExifInfo) :
    0 ≤ _analyze_metadata e ∧ _analyze_metadata e ≤ 0.8 := by
  cases e with
  | extractionFailure => norm_num [_analyze_metadata]
  | noExif => norm_num [_analyze_metadata]
  | exifTags n c => simp only [_analyze_metadata]; split_ifs <;> norm_num

theorem _analyze_noise_patterns_bounds (x : ℚ) :
    0 ≤ _analyze_noise_patterns x ∧ _analyze_noise_patterns x ≤ 0.7 := by
  unfold _analyze_noise_patterns; split_ifs <;> norm_num

theorem _analyze_symmetry_bounds (g : List (List ℚ)) :
    0 ≤ _analyze_symmetry g ∧ _analyze_symmetry g ≤ 0.7 := by
  simp only [_analyze_symmetry]; split_ifs <;> norm_num

theorem _analyze_frequency_bounds (r : ℚ) :
    0 ≤ _analyze_frequency r ∧ _analyze_frequency r ≤ 0.7 := by
  unfold _analyze_frequency; split_ifs <;> norm_num

theorem _detect_ai_artifacts_bounds (s : FrameStats) (c : Bool) :
    0 ≤ _detect_ai_artifacts s c ∧ _detect_ai_artifacts s c ≤ 0.7 := by
  cases c <;> simp only [_detect_ai_artifacts] <;> split_ifs <;> norm_num

theorem _analyze_temporal_consistency_bounds (f : FlowStats) :
    0 ≤ _analyze_temporal_consistency f ∧ _analyze_temporal_consistency f ≤ 0.7 := by
  unfold _analyze_temporal_consistency; split_ifs <;> norm_num

theorem _analyze_audio_spectrum_bounds (x : ℚ) :
    0 ≤ _analyze_audio_spectrum x ∧ _analyze_audio_spectrum x ≤ 0.7 := by
  unfold _analyze_audio_spectrum; split_ifs <;> norm_num

theorem _analyze_audio_patterns_bounds (x : ℚ) :
    0 ≤ _analyze_audio_patterns x ∧ _analyze_audio_patterns x ≤ 0.7 := by
  unfold _analyze_audio_patterns; split_ifs <;> norm_num

theorem _analyze_voice_naturalness_bounds (x : ℚ) :
    0 ≤ _analyze_voice_naturalness x ∧ _analyze_voice_naturalness x ≤ 0.7 := by
  unfold _analyze_voice_naturalness; split_ifs <;> norm_num

theorem video_loop_fst_mem (flow : FrameStats → FrameStats → FlowStats) (step : ℕ)
    (frames : List FrameStats) :
    ∀ (fc : ℕ) (prev : Option FrameStats),
      ∀ x ∈ (video_loop flow step frames fc prev).1, 0 ≤ x ∧ x ≤ 0.7 := by
  induction frames with
  | nil => intro fc prev x hx; simp [video_loop] at hx
  | cons f rest ih =>
    intro fc prev x hx
    rw [video_loop] at hx
    by_cases h30 : fc < 30
    · rw [if_pos h30] at hx
      by_cases hstep : (fc % step == 0) = true
      · rw [if_pos hstep] at hx
        have hb : 0 ≤ (_analyze_noise_patterns f.noise_std + _detect_ai_artifacts f true) / 2 ∧
            (_analyze_noise_patterns f.noise_std + _detect_ai_artifacts f true) / 2 ≤ 0.7 := by
          have h1 := _analyze_noise_patterns_bounds f.noise_std
          have h2 := _detect_ai_artifacts_bounds f true
          constructor <;> [linarith [h1.1, h2.1]; linarith [h1.2, h2.2]]
        cases prev with
        | some p =>
          simp only [List.mem_cons] at hx
          rcases hx with hx | hx
          · exact hx ▸ hb
          · exact ih _ _ x hx
        | none =>
          simp only [List.mem_cons] at hx
          rcases hx with hx | hx
          · exact hx ▸ hb
          · exact ih _ _ x hx
      · rw [if_neg hstep] at hx
        exact ih _ _ x hx
    · rw [if_neg h30] at hx
      simp at hx

theorem video_loop_snd_mem (flow : FrameStats → FrameStats → FlowStats) (step : ℕ)
    (frames : List FrameStats) :
    ∀ (fc : ℕ) (prev : Option FrameStats),
      ∀ x ∈ (video_loop flow step frames fc prev).2, 0 ≤ x ∧ x ≤ 0.7 := by
  induction frames with
  | nil => intro fc prev x hx; simp [video_loop] at hx
  | cons f rest ih =>
    intro fc prev x hx
    rw [video_loop] at hx
    by_cases h30 : fc < 30
    · rw [if_pos h30] at hx
      by_cases hstep : (fc % step == 0) = true
      · rw [if_pos hstep] at hx
        cases prev with
        | some p =>
          simp only [List.mem_cons] at hx
          rcases hx with hx | hx
          · exact hx ▸ _analyze_temporal_consistency_bounds (flow p f)
          · exact ih _ _ x hx
        | none => exact ih _ _ x hx
      · rw [if_neg hstep] at hx
        exact ih _ _ x hx
    · rw [if_neg h30] at hx
      simp at hx

theorem symmetry_vectors_eq_of_mirror (gray : List (List ℚ))
    (hrect : ∀ row ∈ gray, row.length = (gray.headD []).length)
    (hmirror : ∀ row ∈ gray, row.reverse = row) :
    (symmetry_vectors gray).2 = (symmetry_vectors gray).1 := by
  simp only [symmetry_vectors, List.map_map]
  congr 1
  refine List.map_congr_left fun row hrow => ?_
  have hlen := hrect row hrow
  have hmir := hmirror row hrow
  simp only [Function.comp_apply]
  have hmw : min ((gray.headD []).length / 2)
      ((gray.headD []).length - (gray.headD []).length / 2) =
      (gray.headD []).length / 2 := by omega
  rw [hmw, List.reverse_drop, hmir, hlen, List.take_take, List.take_take]
  congr 1
  omega

theorem corr_gt_self {x : List ℚ} (hvar : 0 < scatter x x) :
    corr_gt x x 0.85 := by
  refine ⟨mul_pos hvar hvar, hvar, ?_⟩
  nlinarith [mul_pos hvar hvar]

/-! ## Claim theorems -/

/-- C8: within each modality the configured aggregation weights sum to
exactly 1 (hence in particular to 1 within `1e-9`): `0.15 + 0.25 + 0.15 +
0.20 + 0.25` for the image weight dict, `0.35 + 0.35 + 0.30` for audio and
`0.6 + 0.4` for the video frame/temporal split. -/
theorem modality_weights_sum_to_one :
    lsum (image_weights.map Prod.snd) = 1 ∧
    video_frame_weight + video_temporal_weight = 1 ∧
    audio_spectral_weight + audio_pattern_weight + audio_naturalness_weight = 1 ∧
    |lsum (image_weights.map Prod.snd) - 1| ≤ 1 / 1000000000 ∧
    |video_frame_weight + video_temporal_weight - 1| ≤ 1 / 1000000000 ∧
    |audio_spectral_weight + audio_pattern_weight + audio_naturalness_weight - 1|
      ≤ 1 / 1000000000 := by
  norm_num [image_weights, lsum, video_frame_weight, video_temporal_weight,
    audio_spectral_weight, audio_pattern_weight, audio_naturalness_weight]

/-- C1: for every image that decodes, the returned probability is the
weighted sum of the five sub-scores (weights 0.15 / 0.25 / 0.15 / 0.20 /
0.25), times 100, rounded to two decimals. -/
theorem image_probability_is_weighted_sum (d : ImageData) :
    (detect_image (.loaded d)).ai_probability =
      some (pyround2 (100 *
        (0.15 * _analyze_metadata d.exif +
         0.25 * _analyze_noise_patterns d.stats.noise_std +
         0.15 * _analyze_symmetry d.gray +
         0.20 * _analyze_frequency d.freq_ratio +
         0.25 * _detect_ai_artifacts d.stats d.isColor))) := by
  simp only [detect_image, image_weight_metadata, image_weight_noise,
    image_weight_symmetry, image_weight_frequency, image_weight_artifacts]
  congr 2
  ring

/-- C4: in every modality the analyzer is a total function into result
dicts (exceptions are converted to error results at the boundary), and a
result that carries the `error` key carries no other key, while a
non-error result carries all data keys. -/
theorem analyzers_return_result_shaped_dicts :
    (∀ s, result_shape (detect_image s)) ∧
    (∀ flow s, result_shape (detect_video flow s)) ∧
    (∀ s, result_shape (detect_audio s)) := by
  refine ⟨fun s => ?_, fun flow s => ?_, fun s => ?_⟩
  · cases s with
    | loadFailure => left; simp [detect_image]
    | raised e => left; simp [detect_image]
    | loaded d => right; simp [detect_image]
  · cases s with
    | openFailure => left; simp [detect_video]
    | raised e => left; simp [detect_video]
    | opened v =>
      right
      simp only [detect_video]
      split <;> simp
  · cases s with
    | raised e => left; simp [detect_audio]
    | loaded a => right; simp [detect_audio]

/-- C5: every sub-analyzer score lies in [0, 1] (the artifact score — a sum
of triggered contributions over the number of checks evaluated — included),
and in every modality the returned probability lies in [0, 100]. -/
theorem scores_and_probabilities_in_range :
    (∀ e, 0 ≤ _analyze_metadata e ∧ _analyze_metadata e ≤ 1) ∧
    (∀ x, 0 ≤ _analyze_noise_patterns x ∧ _analyze_noise_patterns x ≤ 1) ∧
    (∀ g, 0 ≤ _analyze_symmetry g ∧ _analyze_symmetry g ≤ 1) ∧
    (∀ r, 0 ≤ _analyze_frequency r ∧ _analyze_frequency r ≤ 1) ∧
    (∀ s c, 0 ≤ _detect_ai_artifacts s c ∧ _detect_ai_artifacts s c ≤ 1) ∧
    (∀ f, 0 ≤ _analyze_temporal_consistency f ∧ _analyze_temporal_consistency f ≤ 1) ∧
    (∀ x, 0 ≤ _analyze_audio_spectrum x ∧ _analyze_audio_spectrum x ≤ 1) ∧
    (∀ x, 0 ≤ _analyze_audio_patterns x ∧ _analyze_audio_patterns x ≤ 1) ∧
    (∀ x, 0 ≤ _analyze_voice_naturalness x ∧ _analyze_voice_naturalness x ≤ 1) ∧
    (∀ s, 0 ≤ (detect_image s).ai_probability.getD 0 ∧
      (detect_image s).ai_probability.getD 0 ≤ 100) ∧
    (∀ flow s, 0 ≤ (detect_video flow s).ai_probability.getD 0 ∧
      (detect_video flow s).ai_probability.getD 0 ≤ 100) ∧
    (∀ s, 0 ≤ (detect_audio s).ai_probability.getD 0 ∧
      (detect_audio s).ai_probability.getD 0 ≤ 100) := by
  refine ⟨fun e => ?_, fun x => ?_, fun g => ?_, fun r => ?_, fun s c => ?_,
    fun f => ?_, fun x => ?_, fun x => ?_, fun x => ?_,
    fun s => ?_, fun flow s => ?_, fun s => ?_⟩
  · have := _analyze_metadata_bounds e; exact ⟨this.1, by linarith [this.2]⟩
  · have := _analyze_noise_patterns_bounds x; exact ⟨this.1, by linarith [this.2]⟩
  · have := _analyze_symmetry_bounds g; exact ⟨this.1, by linarith [this.2]⟩
  · have := _analyze_frequency_bounds r; exact ⟨this.1, by linarith [this.2]⟩
  · have := _detect_ai_artifacts_bounds s c; exact ⟨this.1, by linarith [this.2]⟩
  · have := _analyze_temporal_consistency_bounds f; exact ⟨this.1, by linarith [this.2]⟩
  · have := _analyze_audio_spectrum_bounds x; exact ⟨this.1, by linarith [this.2]⟩
  · have := _analyze_audio_patterns_bounds x; exact ⟨this.1, by linarith [this.2]⟩
  · have := _analyze_voice_naturalness_bounds x; exact ⟨this.1, by linarith [this.2]⟩
  · cases s with
    | loadFailure => simp [detect_image]
    | raised e => simp [detect_image]
    | loaded d =>
      simp only [detect_image, image_weight_metadata, image_weight_noise,
        image_weight_symmetry, image_weight_frequency, image_weight_artifacts,
        Option.getD_some]
      have hm := _analyze_metadata_bounds d.exif
      have hn := _analyze_noise_patterns_bounds d.stats.noise_std
      have hs := _analyze_symmetry_bounds d.gray
      have hf := _analyze_frequency_bounds d.freq_ratio
      have ha := _detect_ai_artifacts_bounds d.stats d.isColor
      exact pyround2_bounds
        (by linarith [hm.1, hn.1, hs.1, hf.1, ha.1])
        (by linarith [hm.2, hn.2, hs.2, hf.2, ha.2])
  · cases s with
    | openFailure => simp [detect_video]
    | raised e => simp [detect_video]
    | opened v =>
      simp only [detect_video]
      split
      · simp
      · next hne =>
        simp only [Option.getD_some]
        have hfs : (video_loop flow (max 1 (v.total_frames / 30)) v.frames 0 none).1 ≠ [] := by
          simpa [List.isEmpty_iff] using hne
        have hfm := video_loop_fst_mem flow (max 1 (v.total_frames / 30)) v.frames 0 none
        have havgF0 : 0 ≤ lmean (video_loop flow (max 1 (v.total_frames / 30)) v.frames 0 none).1 :=
          lmean_nonneg fun x hx => (hfm x hx).1
        have havgF1 : lmean (video_loop flow (max 1 (v.total_frames / 30)) v.frames 0 none).1 ≤ 0.7 :=
          lmean_le hfs fun x hx => (hfm x hx).2
        have htm := video_loop_snd_mem flow (max 1 (v.total_frames / 30)) v.frames 0 none
        have havgT : 0 ≤ (if (video_loop flow (max 1 (v.total_frames / 30)) v.frames 0 none).2.isEmpty
              then (0.5:ℚ)
              else lmean (video_loop flow (max 1 (v.total_frames / 30)) v.frames 0 none).2) ∧
            (if (video_loop flow (max 1 (v.total_frames / 30)) v.frames 0 none).2.isEmpty
              then (0.5:ℚ)
              else lmean (video_loop flow (max 1 (v.total_frames / 30)) v.frames 0 none).2) ≤ 0.7 := by
          split
          · norm_num
          · next hts =>
            have hts' : (video_loop flow (max 1 (v.total_frames / 30)) v.frames 0 none).2 ≠ [] := by
              simpa [List.isEmpty_iff] using hts
            exact ⟨lmean_nonneg fun x hx => (htm x hx).1,
              lmean_le hts' fun x hx => (htm x hx).2⟩
        exact pyround2_bounds
          (by unfold video_frame_weight video_temporal_weight; nlinarith [havgT.1, havgT.2])
          (by unfold video_frame_weight video_temporal_weight; nlinarith [havgT.1, havgT.2])
  · cases s with
    | raised e => simp [detect_audio]
    | loaded a =>
      simp only [detect_audio, Option.getD_some]
      have h1 := _analyze_audio_spectrum_bounds a.mean_centroid
      have h2 := _analyze_audio_patterns_bounds a.zcr_std
      have h3 := _analyze_voice_naturalness_bounds a.mean_mfcc_var
      unfold audio_spectral_weight audio_pattern_weight audio_naturalness_weight
      exact pyround2_bounds
        (by linarith [h1.1, h2.1, h3.1])
        (by linarith [h1.2, h2.2, h3.2])

/-- C6: the verdict formatter is a pure function of the result: an
error-bearing result renders to the error line only; a non-error result
renders to a report whose verdict/colour are selected by `verdict_of`
(probability ≥ 70 red "likely AI", 40 ≤ probability < 70 yellow
"possibly AI", probability < 40 green "likely human"), whose detail lines
render a float value as `round(value*100, 1)` per cent and a non-float
value verbatim. -/
theorem format_result_verdicts_and_details :
    (∀ r e, r.error = some e → format_result r = .errorOnly e) ∧
    (∀ r, r.error = none → format_result r = .report
        { emoji := (verdict_of (r.ai_probability.getD 0)).2,
          verdict := (verdict_of (r.ai_probability.getD 0)).1,
          ai_probability := r.ai_probability.getD 0,
          indicators := r.indicators.getD [],
          details := (r.details.getD []).map render_detail }) ∧
    (∀ p : ℚ, 70 ≤ p → verdict_of p = ("🤖 Вероятно создано AI", "🔴")) ∧
    (∀ p : ℚ, 40 ≤ p → p < 70 → verdict_of p = ("⚠️ Возможно создано AI", "🟡")) ∧
    (∀ p : ℚ, p < 40 → verdict_of p = ("✅ Вероятно создано человеком", "🟢")) ∧
    (∀ k v, render_detail (k, .fl v) =
      ((key_ru_table.lookup k).getD k, .percent (pyround1 (v * 100)))) ∧
    (∀ k n, render_detail (k, .int n) =
      ((key_ru_table.lookup k).getD k, .verbatim n)) := by
  refine ⟨fun r e h => ?_, fun r h => ?_, fun p h => ?_, fun p h1 h2 => ?_,
    fun p h => ?_, fun k v => rfl, fun k n => rfl⟩
  · simp [format_result, h]
  · simp [format_result, h]
  · rw [verdict_of, if_pos (by linarith)]
  · rw [verdict_of, if_neg (by linarith), if_pos (by linarith)]
  · rw [verdict_of, if_neg (by linarith), if_neg (by linarith)]

/-- Witness for C6: concrete instances of each clause — an error result
renders to its error line; 80 is red, 55 yellow, 10 green; a float detail
of 0.42 renders as 42 per cent and an int detail verbatim. -/
theorem format_result_verdicts_and_details_witness :
    format_result { error := some "сбой" } = .errorOnly "сбой" ∧
    format_result
        { type := some "audio", ai_probability := some 10,
          indicators := some [], details := some [] } = .report
      { emoji := (verdict_of ((10:ℚ))).2, verdict := (verdict_of ((10:ℚ))).1,
        ai_probability := 10, indicators := [], details := [] } ∧
    verdict_of 80 = ("🤖 Вероятно создано AI", "🔴") ∧
    verdict_of 55 = ("⚠️ Возможно создано AI", "🟡") ∧
    verdict_of 10 = ("✅ Вероятно создано человеком", "🟢") ∧
    render_detail ("naturalness", .fl 0.42) =
      (("Естественность" : String), .percent (pyround1 (0.42 * 100))) ∧
    render_detail ("frames_analyzed", .int 7) =
      (("Проанализировано кадров" : String), .verbatim 7) := by
  refine ⟨format_result_verdicts_and_details.1 _ "сбой" rfl, ?_,
    format_result_verdicts_and_details.2.2.1 80 (by norm_num),
    format_result_verdicts_and_details.2.2.2.1 55 (by norm_num) (by norm_num),
    format_result_verdicts_and_details.2.2.2.2.1 10 (by norm_num),
    format_result_verdicts_and_details.2.2.2.2.2.1 "naturalness" 0.42,
    format_result_verdicts_and_details.2.2.2.2.2.2 "frames_analyzed" 7⟩
  exact format_result_verdicts_and_details.2.1
    { type := some "audio", ai_probability := some 10,
      indicators := some [], details := some [] } rfl

/-- Counterexample for C3: a video source that cannot even be opened —
from which, in particular, zero frames can be decoded — yields an
error-bearing result with no probability and no data, not the claimed
non-error degenerate result. -/
theorem unopenable_video_yields_error_result :
    (detect_video zeroFlow .openFailure).error = some "Не удалось открыть видео" ∧
    (detect_video zeroFlow .openFailure).ai_probability = none ∧
    (detect_video zeroFlow .openFailure).indicators = none ∧
    (detect_video zeroFlow .openFailure).details = none :=
  ⟨rfl, rfl, rfl, rfl⟩

/-- C3 amended: for every video source that OPENS but from which zero
frames are decoded, the analyzer returns the non-error degenerate result:
probability 0, no indicators, `frames_analyzed = 0` (and the initial
`temporal_consistency = 0.0`); a source that fails to open instead yields
an error result. -/
theorem opened_zero_frame_video_degenerate
    (flow : FrameStats → FrameStats → FlowStats) (v : VideoData)
    (h : v.frames = []) :
    detect_video flow (.opened v) =
      { type := some "video", ai_probability := some 0, indicators := some [],
        details := some [("frames_analyzed", .int 0),
                         ("temporal_consistency", .fl 0)],
        error := none } := by
  simp [detect_video, h, video_loop]

/-- Witness for C3's amended theorem at the concrete empty opened video. -/
theorem opened_zero_frame_video_degenerate_witness :
    detect_video zeroFlow (.opened emptyVideo) =
      { type := some "video", ai_probability := some 0, indicators := some [],
        details := some [("frames_analyzed", .int 0),
                         ("temporal_consistency", .fl 0)],
        error := none } :=
  opened_zero_frame_video_degenerate zeroFlow emptyVideo rfl

/-- C2 (divergence evidence): on a 90-frame video the source analyzes only
10 frames — the loop guard `frame_count < max_frames` counts every frame
READ, so only the first 30 frames of the video are ever read, and of those
only every `step`-th (here `step = 90 // 30 = 3`, frames 0, 3, …, 27) is
scored.  Sampling 30 frames evenly spaced across the full frame count
(0, 3, …, 87) would give `frames_analyzed = 30`. -/
theorem ninety_frame_video_analyzes_only_ten_frames :
    ((detect_video zeroFlow (.opened ninetyFrameVideo)).details.getD []).lookup
        "frames_analyzed" = some (.int 10) := by
  decide

/-- C9: every indicator gated by a strict `> 0.7` threshold is
unreachable: noise, frequency and artifact sub-scores, the video per-frame
and temporal averages, and the three audio sub-scores are bounded above by
exactly 0.7, so the image noise/frequency/artifact indicators are never
appended and video and audio results never carry any indicator; only the
image metadata (`> 0.6`, maximum 0.8) and symmetry (`> 0.6`, maximum 0.7)
indicators can fire, and both actually do on suitable inputs. -/
theorem strict_indicators_unreachable :
    (∀ x, _analyze_noise_patterns x ≤ 0.7) ∧
    (∀ r, _analyze_frequency r ≤ 0.7) ∧
    (∀ s c, _detect_ai_artifacts s c ≤ 0.7) ∧
    (∀ f, _analyze_temporal_consistency f ≤ 0.7) ∧
    (∀ x, _analyze_audio_spectrum x ≤ 0.7) ∧
    (∀ x, _analyze_audio_patterns x ≤ 0.7) ∧
    (∀ x, _analyze_voice_naturalness x ≤ 0.7) ∧
    (∀ e, _analyze_metadata e ≤ 0.8) ∧
    (∀ g, _analyze_symmetry g ≤ 0.7) ∧
    (∀ s, ((detect_image s).indicators.getD []).contains
        "Неестественное распределение шума" = false ∧
      ((detect_image s).indicators.getD []).contains
        "Аномалии в частотном спектре" = false ∧
      ((detect_image s).indicators.getD []).contains
        "Обнаружены AI-артефакты" = false) ∧
    (∀ flow s, (detect_video flow s).indicators.getD [] = []) ∧
    (∀ s, (detect_audio s).indicators.getD [] = []) ∧
    (∃ s, "Отсутствие/подозрительные метаданные" ∈ (detect_image s).indicators.getD []) ∧
    (∃ s, "Подозрительные паттерны симметрии" ∈ (detect_image s).indicators.getD []) := by
  refine ⟨fun x => (_analyze_noise_patterns_bounds x).2,
    fun r => (_analyze_frequency_bounds r).2,
    fun s c => (_detect_ai_artifacts_bounds s c).2,
    fun f => (_analyze_temporal_consistency_bounds f).2,
    fun x => (_analyze_audio_spectrum_bounds x).2,
    fun x => (_analyze_audio_patterns_bounds x).2,
    fun x => (_analyze_voice_naturalness_bounds x).2,
    fun e => (_analyze_metadata_bounds e).2,
    fun g => (_analyze_symmetry_bounds g).2,
    fun s => ?_, fun flow s => ?_, fun s => ?_, ?_, ?_⟩
  · cases s with
    | loadFailure => simp [detect_image]
    | raised e => simp [detect_image]
    | loaded d =>
      simp only [detect_image, Option.getD_some]
      have hn := (_analyze_noise_patterns_bounds d.stats.noise_std).2
      have hf := (_analyze_frequency_bounds d.freq_ratio).2
      have ha := (_detect_ai_artifacts_bounds d.stats d.isColor).2
      rw [if_neg (not_lt.mpr hn), if_neg (not_lt.mpr hf), if_neg (not_lt.mpr ha)]
      refine ⟨?_, ?_, ?_⟩ <;> (split_ifs <;> rfl)
  · cases s with
    | openFailure => simp [detect_video]
    | raised e => simp [detect_video]
    | opened v =>
      simp only [detect_video]
      split
      · simp
      · next hne =>
        simp only [Option.getD_some]
        have hfs : (video_loop flow (max 1 (v.total_frames / 30)) v.frames 0 none).1 ≠ [] := by
          simpa [List.isEmpty_iff] using hne
        have hfm := video_loop_fst_mem flow (max 1 (v.total_frames / 30)) v.frames 0 none
        have havgF : lmean (video_loop flow (max 1 (v.total_frames / 30)) v.frames 0 none).1 ≤ 0.7 :=
          lmean_le hfs fun x hx => (hfm x hx).2
        have htm := video_loop_snd_mem flow (max 1 (v.total_frames / 30)) v.frames 0 none
        have havgT : (if (video_loop flow (max 1 (v.total_frames / 30)) v.frames 0 none).2.isEmpty
              then (0.5:ℚ)
              else lmean (video_loop flow (max 1 (v.total_frames / 30)) v.frames 0 none).2) ≤ 0.7 := by
          split
          · norm_num
          · next hts =>
            have hts' : (video_loop flow (max 1 (v.total_frames / 30)) v.frames 0 none).2 ≠ [] := by
              simpa [List.isEmpty_iff] using hts
            exact lmean_le hts' fun x hx => (htm x hx).2
        rw [if_neg (not_lt.mpr havgF), if_neg (not_lt.mpr havgT)]
        simp
  · cases s with
    | raised e => simp [detect_audio]
    | loaded a =>
      simp only [detect_audio, Option.getD_some]
      have h1 := (_analyze_audio_spectrum_bounds a.mean_centroid).2
      have h2 := (_analyze_audio_patterns_bounds a.zcr_std).2
      have h3 := (_analyze_voice_naturalness_bounds a.mean_mfcc_var).2
      rw [if_neg (not_lt.mpr h1), if_neg (not_lt.mpr h2), if_neg (not_lt.mpr h3)]
      simp
  · refine ⟨.loaded noExifImage, ?_⟩
    simp only [detect_image, Option.getD_some, noExifImage]
    rw [if_pos (by norm_num [_analyze_metadata])]
    simp
  · refine ⟨.loaded mirrorImage, ?_⟩
    simp only [detect_image, Option.getD_some, mirrorImage]
    have hsym : _analyze_symmetry mirrorGray = 0.7 := by
      rw [_analyze_symmetry,
        if_pos (by norm_num [corr_gt, symmetry_vectors, mirrorGray, scatter,
          lmean, lsum])]
    simp only [hsym]
    rw [if_pos (by norm_num : (0.7:ℚ) > 0.6)]
    simp

/-- Counterexample for C7: a solid-colour image is exactly mirror-symmetric
(its right half is the horizontal mirror of its left half), yet its sample
variance is zero, `np.corrcoef` yields NaN, the `> 0.85` comparison is
false and the symmetry score is 0.3, not 0.7 — and no symmetry indicator
is appended. -/
theorem mirrored_constant_image_symmetry_not_high :
    constGray.map List.reverse = constGray ∧
    _analyze_symmetry constGray = 0.3 ∧
    (detect_image (.loaded constMirrorImage)).indicators = some [] := by
  have hvecs : symmetry_vectors constGray = ([5, 5], [5, 5]) := by
    norm_num [symmetry_vectors, constGray]
  have hscore : _analyze_symmetry constGray = 0.3 := by
    rw [_analyze_symmetry]
    simp only [hvecs]
    rw [if_neg]
    norm_num [corr_gt, scatter, lmean, lsum]
  have h1 : _analyze_metadata (ExifInfo.exifTags 5 true) = 0.2 := by
    norm_num [_analyze_metadata]
  have h2 : _analyze_noise_patterns (10:ℚ) = 0.3 := by
    norm_num [_analyze_noise_patterns]
  have h4 : _analyze_frequency (50:ℚ) = 0.3 := by
    norm_num [_analyze_frequency]
  have h5 : _detect_ai_artifacts neutralFrame true = 0 := by
    norm_num [_detect_ai_artifacts, neutralFrame]
  refine ⟨by norm_num [constGray], hscore, ?_⟩
  have e1 : constMirrorImage.exif = .exifTags 5 true := rfl
  have e2 : constMirrorImage.stats = neutralFrame := rfl
  have e3 : constMirrorImage.gray = constGray := rfl
  have e4 : constMirrorImage.freq_ratio = 50 := rfl
  have e5 : constMirrorImage.isColor = true := rfl
  have n1 : neutralFrame.noise_std = 10 := rfl
  simp only [detect_image, e1, e2, e3, e4, e5, n1,
    h1, h2, hscore, h4, h5]
  norm_num

/-- C7 amended: for every decoded image whose rectangular grayscale grid
is mirror-symmetric (each row reads the same reversed) AND whose cropped
half samples are not all equal (positive scatter, i.e. non-zero variance),
the symmetry analyzer returns 0.7 (the correlation test against 0.85
succeeds) and the symmetry indicator is appended to the result.  The
non-constancy hypothesis is forced by the counterexample: at zero variance
`np.corrcoef` is NaN and the score is 0.3. -/
theorem mirrored_nonconstant_image_symmetry (d : ImageData)
    (hrect : ∀ row ∈ d.gray, row.length = (d.gray.headD []).length)
    (hmirror : ∀ row ∈ d.gray, row.reverse = row)
    (hvar : 0 < scatter (symmetry_vectors d.gray).1 (symmetry_vectors d.gray).1) :
    _analyze_symmetry d.gray = 0.7 ∧
    "Подозрительные паттерны симметрии" ∈
      (detect_image (.loaded d)).indicators.getD [] := by
  have hv := symmetry_vectors_eq_of_mirror d.gray hrect hmirror
  have hsym : _analyze_symmetry d.gray = 0.7 := by
    rw [_analyze_symmetry]
    simp only [hv]
    exact if_pos (corr_gt_self hvar)
  refine ⟨hsym, ?_⟩
  simp only [detect_image, Option.getD_some, hsym]
  rw [if_pos (by norm_num : (0.7:ℚ) > 0.6)]
  simp

/-- Witness for C7's amended theorem at the concrete non-constant mirrored
image `mirrorImage`. -/
theorem mirrored_nonconstant_image_symmetry_witness :
    _analyze_symmetry mirrorImage.gray = 0.7 ∧
    "Подозрительные паттерны симметрии" ∈
      (detect_image (.loaded mirrorImage)).indicators.getD [] :=
  mirrored_nonconstant_image_symmetry mirrorImage
    (by norm_num [mirrorImage, mirrorGray])
    (by norm_num [mirrorImage, mirrorGray])
    (by norm_num [mirrorImage, mirrorGray, symmetry_vectors, scatter,
      lmean, lsum])

/-- C10: whenever a video analysis decodes at least one frame, the stored
`temporal_consistency` detail is already a percentage —
`round(avg_temporal * 100, 2)` — and `format_result`, treating it as an
ordinary float detail, multiplies by 100 again, rendering
`round(value * 100, 1)` per cent; in particular a neutral temporal average
of 0.5 is displayed as 5000 per cent. -/
theorem temporal_consistency_displayed_double_scaled :
    (∀ (flow : FrameStats → FrameStats → FlowStats) (v : VideoData),
      (video_loop flow (max 1 (v.total_frames / 30)) v.frames 0 none).1 ≠ [] →
      ((detect_video flow (.opened v)).details.getD []).lookup "temporal_consistency" =
        some (.fl (pyround2 (100 *
          (if (video_loop flow (max 1 (v.total_frames / 30)) v.frames 0 none).2.isEmpty
           then (0.5:ℚ)
           else lmean (video_loop flow (max 1 (v.total_frames / 30)) v.frames 0 none).2))))) ∧
    (∀ x : ℚ, render_detail ("temporal_consistency", .fl x) =
      ("Темпоральная согласованность", .percent (pyround1 (100 * x)))) ∧
    (rendered_details (format_result (detect_video abruptIntoB
        (.opened threeFrameVideo)))).lookup "Темпоральная согласованность" =
      some (.percent 5000) := by
  refine ⟨fun flow v hne => ?_, fun x => by rw [mul_comm]; rfl, ?_⟩
  · simp only [detect_video]
    split
    · next h => exact absurd (List.isEmpty_iff.mp h) hne
    · simp only [Option.getD_some, List.lookup]
      norm_num [mul_comm]
      rfl
  · have hloop : video_loop abruptIntoB (max 1 (threeFrameVideo.total_frames / 30))
        threeFrameVideo.frames 0 none =
        ((_analyze_noise_patterns frameA.noise_std + _detect_ai_artifacts frameA true) / 2 ::
         (_analyze_noise_patterns frameB.noise_std + _detect_ai_artifacts frameB true) / 2 ::
         [(_analyze_noise_patterns frameC.noise_std + _detect_ai_artifacts frameC true) / 2],
         _analyze_temporal_consistency (abruptIntoB frameA frameB) ::
         [_analyze_temporal_consistency (abruptIntoB frameB frameC)]) := by
      rfl
    have hA : _analyze_noise_patterns frameA.noise_std = 0.7 := by
      norm_num [_analyze_noise_patterns, frameA]
    have hB : _analyze_noise_patterns frameB.noise_std = 0.7 := by
      norm_num [_analyze_noise_patterns, frameB]
    have hC : _analyze_noise_patterns frameC.noise_std = 0.7 := by
      norm_num [_analyze_noise_patterns, frameC]
    have haA : _detect_ai_artifacts frameA true = 0 := by
      norm_num [_detect_ai_artifacts, frameA]
    have haB : _detect_ai_artifacts frameB true = 0 := by
      norm_num [_detect_ai_artifacts, frameB]
    have haC : _detect_ai_artifacts frameC true = 0 := by
      norm_num [_detect_ai_artifacts, frameC]
    have htAB : _analyze_temporal_consistency (abruptIntoB frameA frameB) = 0.7 := by
      norm_num [_analyze_temporal_consistency, abruptIntoB, frameB]
    have htBC : _analyze_temporal_consistency (abruptIntoB frameB frameC) = 0.3 := by
      norm_num [_analyze_temporal_consistency, abruptIntoB, frameC]
    simp only [detect_video, hloop, hA, hB, hC, haA, haB, haC, htAB, htBC]
    norm_num [lmean, lsum, pyround2, pyround1, round_eq, format_result,
      render_detail, rendered_details, key_ru_table, List.lookup, verdict_of]
    rfl

/-- Witness for C10's first clause at the concrete three-frame video. -/
theorem temporal_consistency_displayed_double_scaled_witness :
    ((detect_video abruptIntoB (.opened threeFrameVideo)).details.getD []).lookup
        "temporal_consistency" =
      some (.fl (pyround2 (100 *
        (if (video_loop abruptIntoB (max 1 (threeFrameVideo.total_frames / 30))
              threeFrameVideo.frames 0 none).2.isEmpty
         then (0.5:ℚ)
         else lmean (video_loop abruptIntoB (max 1 (threeFrameVideo.total_frames / 30))
              threeFrameVideo.frames 0 none).2)))) :=
  temporal_consistency_displayed_double_scaled.1 abruptIntoB threeFrameVideo
    (by simp [video_loop, threeFrameVideo])

end AIDetector
